import Mathlib

/-!
Shallow embedding of the Trading-Tools core (Vietnamese equities platform):
order FSM (`core/entities/order.py`), portfolio (`core/entities/portfolio.py`),
risk gate (`core/use_cases/risk_check.py`), price bands
(`core/use_cases/price_band.py`), T+2.5 settlement
(`core/use_cases/settlement.py`), idempotent order placement
(`core/use_cases/place_order.py`) and the circuit breaker
(`adapters/circuit_breaker.py`).

Modelling conventions: Python `Decimal` values are embedded as `ℚ` (the
Decimal operations used here — +, *, comparison, quantize-to-integer with
ROUND_DOWN / ROUND_UP — are exact at the precisions the code works with);
Python `int` as `ℤ` or `ℕ`; `datetime.date` as days-since-2025-12-29 (a
Monday), so `weekday d = d % 7` with Monday = 0, matching Python.
-/

namespace TradingTools

/-! ## `core/entities/order.py` -/

/-- Order lifecycle states (`OrderStatus`, order.py). -/
inductive OrderStatus
  | CREATED
  | PENDING
  | PARTIAL_FILL
  | MATCHED
  | REJECTED
  | BROKER_REJECTED
  | CANCELLED
deriving DecidableEq, Repr

/-- `OrderSide` (order.py). -/
inductive OrderSide
  | BUY
  | SELL
deriving DecidableEq, Repr

/-- `OrderType` (order.py). -/
inductive OrderType
  | LO
  | ATO
  | ATC
  | MP
deriving DecidableEq, Repr

/-- `_VALID_TRANSITIONS` (order.py lines 50-78): whitelist of allowed
successor statuses. -/
def validTransitions : OrderStatus → List OrderStatus
  | .CREATED => [.PENDING, .REJECTED, .CANCELLED]
  | .PENDING => [.PARTIAL_FILL, .MATCHED, .BROKER_REJECTED, .CANCELLED]
  | .PARTIAL_FILL => [.PARTIAL_FILL, .MATCHED, .CANCELLED]
  | .MATCHED => []
  | .REJECTED => []
  | .BROKER_REJECTED => []
  | .CANCELLED => []

/-- `Order` (order.py): immutable order entity.  `Price` is embedded as `ℚ`,
`Quantity` as `ℤ`, `datetime` as `ℤ`. -/
structure Order where
  order_id : String
  symbol : String
  side : OrderSide
  order_type : OrderType
  quantity : ℤ
  price : ℚ
  ceiling_price : ℚ
  floor_price : ℚ
  status : OrderStatus
  filled_quantity : ℤ
  avg_fill_price : ℚ
  broker_order_id : Option String
  rejection_reason : Option String
  idempotency_key : String
  created_at : ℤ
  updated_at : ℤ
deriving DecidableEq, Repr

/-- The `**kwargs` patch accepted by `Order.transition_to` and forwarded
to `dataclasses.replace`: `replace` accepts EVERY init field of `Order`,
so each field may be left unchanged (`none`) or overwritten — including
`quantity`, `price` and identity fields.  `status` itself is set
separately by `transition_to` (passing it in kwargs as well would be a
`TypeError` in the source and is not representable here). -/
structure OrderPatch where
  order_id : Option String
  symbol : Option String
  side : Option OrderSide
  order_type : Option OrderType
  quantity : Option ℤ
  price : Option ℚ
  ceiling_price : Option ℚ
  floor_price : Option ℚ
  filled_quantity : Option ℤ
  avg_fill_price : Option ℚ
  broker_order_id : Option (Option String)
  rejection_reason : Option (Option String)
  idempotency_key : Option String
  created_at : Option ℤ
  updated_at : Option ℤ
deriving DecidableEq, Repr

/-- The empty patch (no keyword arguments). -/
def OrderPatch.empty : OrderPatch :=
  ⟨none, none, none, none, none, none, none, none, none, none, none, none,
   none, none, none⟩

/-- `dataclasses.replace(self, **kwargs)`: every field of the new order is
the patch's value when set, the original's otherwise. -/
def applyPatch (o : Order) (p : OrderPatch) : Order :=
  { order_id := p.order_id.getD o.order_id
    symbol := p.symbol.getD o.symbol
    side := p.side.getD o.side
    order_type := p.order_type.getD o.order_type
    quantity := p.quantity.getD o.quantity
    price := p.price.getD o.price
    ceiling_price := p.ceiling_price.getD o.ceiling_price
    floor_price := p.floor_price.getD o.floor_price
    status := o.status
    filled_quantity := p.filled_quantity.getD o.filled_quantity
    avg_fill_price := p.avg_fill_price.getD o.avg_fill_price
    broker_order_id := p.broker_order_id.getD o.broker_order_id
    rejection_reason := p.rejection_reason.getD o.rejection_reason
    idempotency_key := p.idempotency_key.getD o.idempotency_key
    created_at := p.created_at.getD o.created_at
    updated_at := p.updated_at.getD o.updated_at }

/-- `Order.transition_to` (order.py lines 113-131): whitelist check, then
`replace(self, status=new_status, **kwargs)`.  `InvalidOrderTransitionError`
is embedded as the `Except.error` branch. -/
def Order.transition_to (o : Order) (new_status : OrderStatus) (p : OrderPatch) :
    Except String Order :=
  if new_status ∈ validTransitions o.status then
    Except.ok { applyPatch o p with status := new_status }
  else
    Except.error "Invalid transition"

/-- `Order.is_terminal` (order.py lines 133-136). -/
def Order.is_terminal (o : Order) : Bool :=
  (validTransitions o.status).isEmpty

/-- `Order.remaining_quantity` (order.py lines 138-141). -/
def Order.remaining_quantity (o : Order) : ℤ :=
  o.quantity - o.filled_quantity

/-- `Order.order_value` (order.py lines 143-146). -/
def Order.order_value (o : Order) : ℚ :=
  o.price * (o.quantity : ℚ)

/-! ## `core/use_cases/price_band.py` -/

/-- `Exchange` (`core/entities/tick.py`). -/
inductive Exchange
  | HOSE
  | HNX
  | UPCOM
deriving DecidableEq, Repr

/-- `_PRICE_BAND_PCT` (price_band.py lines 21-25). -/
def PRICE_BAND_PCT : Exchange → ℚ
  | .HOSE => 7 / 100
  | .HNX => 10 / 100
  | .UPCOM => 15 / 100

/-- `_HOSE_TICK_SIZES` (price_band.py lines 28-32): `(threshold, tick)`
pairs scanned in order. -/
def HOSE_TICK_SIZES : List (ℚ × ℚ) :=
  [(10000, 10), (50000, 50), (999999999, 100)]

/-- The `for threshold, tick in _HOSE_TICK_SIZES: if price < threshold`
loop inside `_get_tick_size`. -/
def findTick : List (ℚ × ℚ) → ℚ → Option ℚ
  | [], _ => none
  | (threshold, tick) :: rest, price =>
      if price < threshold then some tick else findTick rest price

/-- `_get_tick_size` (price_band.py lines 119-127). -/
def get_tick_size (exchange : Exchange) (price : ℚ) : ℚ :=
  if exchange ≠ Exchange.HOSE then 100
  else (findTick HOSE_TICK_SIZES price).getD 100

/-- `Decimal.quantize(Decimal("1"), rounding=ROUND_DOWN)`: round toward
zero to an integer. -/
def roundTowardZero (q : ℚ) : ℤ :=
  if 0 ≤ q then ⌊q⌋ else ⌈q⌉

/-- `Decimal.quantize(Decimal("1"), rounding=ROUND_UP)`: round away from
zero to an integer. -/
def roundAwayFromZero (q : ℚ) : ℤ :=
  if 0 ≤ q then ⌈q⌉ else ⌊q⌋

/-- `_snap_down` (price_band.py lines 130-132). -/
def snap_down (value tick : ℚ) : ℚ :=
  (roundTowardZero (value / tick) : ℚ) * tick

/-- `_snap_up` (price_band.py lines 135-137). -/
def snap_up (value tick : ℚ) : ℚ :=
  (roundAwayFromZero (value / tick) : ℚ) * tick

/-- `PriceBand` (price_band.py lines 35-44). -/
structure PriceBand where
  symbol : String
  exchange : Exchange
  reference_price : ℚ
  ceiling_price : ℚ
  floor_price : ℚ
  tick_size : ℚ
deriving DecidableEq, Repr

/-- `calculate_price_band` (price_band.py lines 47-76). -/
def calculate_price_band (symbol : String) (exchange : Exchange)
    (reference_price : ℚ) : PriceBand :=
  let band_pct := PRICE_BAND_PCT exchange
  let raw_ceiling := reference_price * (1 + band_pct)
  let raw_floor := reference_price * (1 - band_pct)
  let tick := get_tick_size exchange reference_price
  { symbol := symbol
    exchange := exchange
    reference_price := reference_price
    ceiling_price := snap_down raw_ceiling tick
    floor_price := snap_up raw_floor tick
    tick_size := tick }

/-- Python `Decimal.__mod__`: remainder after division truncated toward
zero (agrees with mathematical remainder for the nonnegative prices and
positive ticks used here). -/
def decMod (a b : ℚ) : ℚ :=
  a - b * (roundTowardZero (a / b) : ℚ)

/-- `validate_order_price` (price_band.py lines 79-116).  The reason
strings abbreviate the formatted f-strings of the source. -/
def validate_order_price (price : ℚ) (band : PriceBand) : Bool × String :=
  if price > band.ceiling_price then
    (false, "exceeds ceiling")
  else if price < band.floor_price then
    (false, "below floor")
  else if decMod price band.tick_size ≠ 0 then
    (false, "not aligned to tick size")
  else
    (true, "Price within valid range")

/-! ## `core/entities/portfolio.py` and `core/entities/risk.py` -/

/-- `Position` (portfolio.py lines 18-54). -/
structure Position where
  symbol : String
  quantity : ℤ
  sellable_qty : ℤ
  receiving_t1 : ℤ
  receiving_t2 : ℤ
  avg_price : ℚ
  market_price : ℚ
deriving DecidableEq, Repr

/-- `Position.market_value` (portfolio.py lines 51-54). -/
def Position.market_value (p : Position) : ℚ :=
  p.market_price * (p.quantity : ℚ)

/-- `CashBalance` (portfolio.py lines 57-74). -/
structure CashBalance where
  cash_bal : ℚ
  purchasing_power : ℚ
  pending_settlement : ℚ
deriving DecidableEq, Repr

/-- `PortfolioState` (portfolio.py lines 77-115); `synced_at` embedded
as `ℤ`. -/
structure PortfolioState where
  positions : List Position
  cash : CashBalance
  synced_at : ℤ
deriving DecidableEq, Repr

/-- `PortfolioState.net_asset_value` (portfolio.py lines 89-93). -/
def PortfolioState.net_asset_value (pf : PortfolioState) : ℚ :=
  (pf.positions.map Position.market_value).sum + pf.cash.cash_bal

/-- `PortfolioState.purchasing_power` (portfolio.py lines 95-98). -/
def PortfolioState.purchasing_power (pf : PortfolioState) : ℚ :=
  pf.cash.purchasing_power

/-- `PortfolioState.get_position` (portfolio.py lines 100-105). -/
def PortfolioState.get_position (pf : PortfolioState) (symbol : String) :
    Option Position :=
  pf.positions.find? (fun p => p.symbol == symbol)

/-- `PortfolioState.get_sellable_qty` (portfolio.py lines 107-115). -/
def PortfolioState.get_sellable_qty (pf : PortfolioState) (symbol : String) : ℤ :=
  match pf.get_position symbol with
  | none => 0
  | some p => p.sellable_qty

/-- `RiskLimit` (risk.py lines 13-30). -/
structure RiskLimit where
  max_position_pct : ℚ
  max_daily_loss : ℚ
  kill_switch_active : Bool
  stop_loss_pct : ℚ
  take_profit_pct : ℚ
deriving DecidableEq, Repr

/-! ## `core/use_cases/risk_check.py` -/

/-- The names of the seven risk checks.  In the source each entry of
`checks_passed` / `checks_failed` is an f-string beginning with one of
these tags; the formatted message suffix is abstracted away. -/
inductive Check
  | KILL_SWITCH
  | PRICE_BAND
  | LOT_SIZE
  | POSITION_SIZE
  | BUYING_POWER
  | SELLABLE_QTY
deriving DecidableEq, Repr

/-- `RiskCheckResult` (risk_check.py lines 30-37).  `reason` is the
joined failure messages in the source; it is determined by
`checks_failed` and omitted here. -/
structure RiskCheckResult where
  approved : Bool
  checks_passed : List Check
  checks_failed : List Check
deriving DecidableEq, Repr

/-- `validate_order` (risk_check.py lines 40-139).  Checks run in source
order; each check appends its tag to exactly one of the two lists, so the
lists are written as ordered concatenations of per-check segments.  Only
the kill switch returns early.  The final verdict (`approved=False` when
any failure was collected, `approved=True` otherwise) is written as
`approved := failed.isEmpty`. -/
def validate_order (order : Order) (portfolio : PortfolioState)
    (limits : RiskLimit) (price_band : Option PriceBand)
    (pending_sell_qty : ℤ) : RiskCheckResult :=
  if limits.kill_switch_active then
    { approved := false, checks_passed := [], checks_failed := [.KILL_SWITCH] }
  else
    let order_value : ℚ := order.price * (order.quantity : ℚ)
    let nav := portfolio.net_asset_value
    let passed : List Check :=
      [.KILL_SWITCH] ++
      (match price_band with
       | none => []
       | some band =>
           if (validate_order_price order.price band).1 then [.PRICE_BAND] else []) ++
      (if order.quantity % 100 = 0 then [.LOT_SIZE] else []) ++
      (if 0 < nav then
         if order_value / nav > limits.max_position_pct then [] else [.POSITION_SIZE]
       else []) ++
      (if order.side = OrderSide.BUY then
         if order_value > portfolio.purchasing_power then [] else [.BUYING_POWER]
       else []) ++
      (if order.side = OrderSide.SELL then
         if order.quantity > portfolio.get_sellable_qty order.symbol - pending_sell_qty
         then [] else [.SELLABLE_QTY]
       else [])
    let failed : List Check :=
      (match price_band with
       | none => []
       | some band =>
           if (validate_order_price order.price band).1 then [] else [.PRICE_BAND]) ++
      (if order.quantity % 100 = 0 then [] else [.LOT_SIZE]) ++
      (if 0 < nav then
         if order_value / nav > limits.max_position_pct then [.POSITION_SIZE] else []
       else []) ++
      (if order.side = OrderSide.BUY then
         if order_value > portfolio.purchasing_power then [.BUYING_POWER] else []
       else []) ++
      (if order.side = OrderSide.SELL then
         if order.quantity > portfolio.get_sellable_qty order.symbol - pending_sell_qty
         then [.SELLABLE_QTY] else []
       else [])
    { approved := failed.isEmpty, checks_passed := passed, checks_failed := failed }

/-! ## `core/use_cases/settlement.py`

Dates are embedded as days since Monday 2025-12-29, so `d % 7` is the
Python `date.weekday()` (Monday = 0) and 2026-01-01 (a Thursday) is day 3.
-/

/-- `_VN_HOLIDAYS_2026` (settlement.py lines 25-38) in the day encoding:
Jan 1 = 3, Jan 26-30 = 28-32, Apr 30 = 122, May 1 = 123, Sep 2 = 247. -/
def VN_HOLIDAYS_2026 : List ℕ := [3, 28, 29, 30, 31, 32, 122, 123, 247]

/-- `is_trading_day` (settlement.py lines 41-43). -/
def is_trading_day (d : ℕ) : Bool :=
  decide (d % 7 < 5) && !(VN_HOLIDAYS_2026.contains d)

/-- The `while not is_trading_day(candidate): candidate += 1` loop of
`next_trading_day`, with explicit fuel.  `nextTradingDay_spec` below shows
fuel 14 always suffices, so this equals the unbounded source loop. -/
def nextTradingDayAux : ℕ → ℕ → ℕ
  | 0, candidate => candidate
  | fuel + 1, candidate =>
      if is_trading_day candidate then candidate
      else nextTradingDayAux fuel (candidate + 1)

/-- `next_trading_day` (settlement.py lines 46-51). -/
def next_trading_day (d : ℕ) : ℕ :=
  nextTradingDayAux 14 (d + 1)

/-- `SettlementDate` (settlement.py lines 16-21). -/
structure SettlementDate where
  trade_date : ℕ
  settlement_date : ℕ
  sellable_session : String
deriving DecidableEq, Repr

/-- `calculate_settlement_date` (settlement.py lines 54-74). -/
def calculate_settlement_date (trade_date : ℕ) : SettlementDate :=
  let t1 := next_trading_day trade_date
  let t2 := next_trading_day t1
  { trade_date := trade_date, settlement_date := t2, sellable_session := "afternoon" }

/-- `can_sell_now` (settlement.py lines 77-95). -/
def can_sell_now (buy_date current_date : ℕ) (current_hour : ℕ) : Bool :=
  let settlement := calculate_settlement_date buy_date
  if current_date > settlement.settlement_date then true
  else if current_date = settlement.settlement_date then decide (current_hour ≥ 13)
  else false

/-! ## `core/use_cases/place_order.py` -/

/-- `PlaceOrderRequest` (place_order.py lines 13-22). -/
structure PlaceOrderRequest where
  symbol : String
  side : String
  order_type : String
  quantity : ℤ
  price : ℚ
  idempotency_key : String
deriving DecidableEq, Repr

/-- `PlaceOrderResult` (place_order.py lines 25-31). -/
structure PlaceOrderResult where
  success : Bool
  order_id : Option String
  broker_order_id : Option String
  error : Option String
  was_duplicate : Bool
deriving DecidableEq, Repr

/-- The dict returned by `risk_check_fn`; `approved` defaults to `True`
and `reason` to `"Risk check failed"` via `.get` in the source, so both
are total fields here. -/
structure RiskDecision where
  approved : Bool
  reason : String
deriving DecidableEq, Repr

/-- `IdempotencyStore._cache` (place_order.py lines 34-49): a dict from
key to result, embedded as an association list where `record` prepends
(the most recent binding wins, matching dict assignment). -/
abbrev IdempotencyStore := List (String × PlaceOrderResult)

/-- `IdempotencyStore.check` (place_order.py lines 40-41). -/
def storeCheck (s : IdempotencyStore) (key : String) : Option PlaceOrderResult :=
  match s.find? (fun kv => kv.1 == key) with
  | none => none
  | some kv => some kv.2

/-- `IdempotencyStore.record` (place_order.py lines 43-44). -/
def storeRecord (s : IdempotencyStore) (key : String) (result : PlaceOrderResult) :
    IdempotencyStore :=
  (key, result) :: s

/-- The world state threaded through `place_order`: the idempotency store,
a count of broker `place_order` invocations, and a fresh-id counter
standing in for `uuid.uuid4()`. -/
structure OmsState where
  store : IdempotencyStore
  broker_calls : ℕ
  next_id : ℕ
deriving Repr

/-- `str(uuid.uuid4())` modelled as a fresh id drawn from the counter. -/
def freshOrderId (n : ℕ) : String :=
  "ORD-" ++ toString n

/-- One `place_order` call (place_order.py lines 52-140).  The broker is a
function returning either a broker order id or a raised exception message
(`Except.error`); `order_repo` persistence (step 5) is best-effort in the
source — it never changes the result or the store — and is not modelled.
Returns the `PlaceOrderResult` and the updated world state. -/
def place_order (broker : PlaceOrderRequest → Except String String)
    (risk_check_fn : Option (PlaceOrderRequest → RiskDecision))
    (dry_run : Bool) (request : PlaceOrderRequest) (st : OmsState) :
    PlaceOrderResult × OmsState :=
  match storeCheck st.store request.idempotency_key with
  | some cached =>
      ({ success := cached.success
         order_id := cached.order_id
         broker_order_id := cached.broker_order_id
         error := none
         was_duplicate := true }, st)
  | none =>
      let riskRejection : Option RiskDecision :=
        match risk_check_fn with
        | none => none
        | some f => if (f request).approved then none else some (f request)
      match riskRejection with
      | some decision =>
          let result : PlaceOrderResult :=
            { success := false, order_id := none, broker_order_id := none
              error := some decision.reason, was_duplicate := false }
          (result, { st with store := storeRecord st.store request.idempotency_key result })
      | none =>
          let order_id := freshOrderId st.next_id
          let st1 : OmsState := { st with next_id := st.next_id + 1 }
          if dry_run then
            let result : PlaceOrderResult :=
              { success := true, order_id := some order_id, broker_order_id := none
                error := none, was_duplicate := false }
            (result, { st1 with store := storeRecord st1.store request.idempotency_key result })
          else
            let st2 : OmsState := { st1 with broker_calls := st1.broker_calls + 1 }
            match broker request with
            | Except.error exc =>
                let result : PlaceOrderResult :=
                  { success := false, order_id := some order_id, broker_order_id := none
                    error := some ("Broker error: " ++ exc), was_duplicate := false }
                (result, { st2 with store := storeRecord st2.store request.idempotency_key result })
            | Except.ok broker_order_id =>
                let result : PlaceOrderResult :=
                  { success := true, order_id := some order_id
                    broker_order_id := some broker_order_id
                    error := none, was_duplicate := false }
                (result, { st2 with store := storeRecord st2.store request.idempotency_key result })

/-- A `place_order` invocation bundled with its per-call collaborators, so
sequences of heterogeneous calls can be folded over the world state. -/
structure CallSpec where
  broker : PlaceOrderRequest → Except String String
  risk_check_fn : Option (PlaceOrderRequest → RiskDecision)
  dry_run : Bool
  request : PlaceOrderRequest

/-- Run one bundled call. -/
def runCall (c : CallSpec) (st : OmsState) : PlaceOrderResult × OmsState :=
  place_order c.broker c.risk_check_fn c.dry_run c.request st

/-- Run a sequence of calls, keeping only the final state. -/
def runSeq (cs : List CallSpec) (st : OmsState) : OmsState :=
  cs.foldl (fun s c => (runCall c s).2) st

/-! ### `_submit_to_broker` wire representation (place_order.py lines 143-155) -/

/-- How a price value crosses the wire to the broker: converted with
`float(...)` or rendered with `str(...)` as a decimal string.  The payload
tag records which conversion the code applied. -/
inductive WirePrice
  | floatOf (value : ℚ)
  | decimalStringOf (value : ℚ)
deriving DecidableEq, Repr

/-- The keyword arguments `_submit_to_broker` passes to
`broker.place_order` (place_order.py lines 146-152); the source builds
`price=float(request.price)`. -/
structure BrokerSubmission where
  symbol : String
  side : String
  order_type : String
  quantity : ℤ
  price : WirePrice
deriving DecidableEq, Repr

/-- The payload constructed by `_submit_to_broker` (place_order.py lines
143-155). -/
def submit_to_broker_payload (request : PlaceOrderRequest) : BrokerSubmission :=
  { symbol := request.symbol
    side := request.side
    order_type := request.order_type
    quantity := request.quantity
    price := WirePrice.floatOf request.price }

/-! ## `adapters/circuit_breaker.py`

Monotonic time (`time.monotonic()`) is embedded as a `ℚ` timestamp passed
into each call; the source reads the clock at the OPEN-check and again in
`_on_failure` within the same call, modelled with the single timestamp. -/

/-- `CircuitState` (circuit_breaker.py lines 15-18). -/
inductive CircuitState
  | CLOSED
  | OPEN
  | HALF_OPEN
deriving DecidableEq, Repr

/-- `CircuitBreaker` mutable dataclass state (circuit_breaker.py lines
25-35). -/
structure CircuitBreaker where
  failure_threshold : ℕ
  recovery_timeout : ℚ
  state : CircuitState
  failure_count : ℕ
  last_failure_time : ℚ
  success_count : ℕ
deriving DecidableEq, Repr

/-- A freshly constructed breaker (dataclass defaults: CLOSED, zero
counters). -/
def CircuitBreaker.init (threshold : ℕ) (timeout : ℚ) : CircuitBreaker :=
  { failure_threshold := threshold, recovery_timeout := timeout
    state := CircuitState.CLOSED, failure_count := 0
    last_failure_time := 0, success_count := 0 }

/-- `CircuitBreaker._on_success` (circuit_breaker.py lines 59-64). -/
def CircuitBreaker.on_success (cb : CircuitBreaker) : CircuitBreaker :=
  { cb with state := CircuitState.CLOSED, failure_count := 0
            success_count := cb.success_count + 1 }

/-- `CircuitBreaker._on_failure` (circuit_breaker.py lines 66-76). -/
def CircuitBreaker.on_failure (cb : CircuitBreaker) (now : ℚ) : CircuitBreaker :=
  let cb1 := { cb with failure_count := cb.failure_count + 1
                       last_failure_time := now }
  if cb1.failure_count ≥ cb1.failure_threshold then
    { cb1 with state := CircuitState.OPEN }
  else cb1

/-- Outcome of one `CircuitBreaker.call`: blocked by `CircuitOpenError`,
or the wrapped awaitable ran and returned / raised. -/
inductive CallOutcome
  | circuitOpen
  | succeeded
  | failed
deriving DecidableEq, Repr

/-- `CircuitBreaker.call` (circuit_breaker.py lines 37-57).  `succeeds`
says whether the wrapped awaitable returns normally or raises. -/
def CircuitBreaker.call (cb : CircuitBreaker) (now : ℚ) (succeeds : Bool) :
    CallOutcome × CircuitBreaker :=
  if cb.state = CircuitState.OPEN ∧ now - cb.last_failure_time < cb.recovery_timeout then
    (CallOutcome.circuitOpen, cb)
  else
    let cb1 :=
      if cb.state = CircuitState.OPEN then { cb with state := CircuitState.HALF_OPEN }
      else cb
    if succeeds then (CallOutcome.succeeded, cb1.on_success)
    else (CallOutcome.failed, cb1.on_failure now)

/-- Fold a list of timestamped failing calls through the breaker. -/
def applyFailures (cb : CircuitBreaker) (times : List ℚ) : CircuitBreaker :=
  times.foldl (fun c t => (c.call t false).2) cb

/-! ## Which risk checks apply to a given input -/

/-- Which of the six implemented checks examine a given input at all:
`PRICE_BAND` runs only when a band is supplied, `POSITION_SIZE` only when
NAV is positive, `BUYING_POWER` only for buys, `SELLABLE_QTY` only for
sells; `KILL_SWITCH` and `LOT_SIZE` always run. -/
def checkApplicable (order : Order) (portfolio : PortfolioState)
    (price_band : Option PriceBand) : Check → Bool
  | .KILL_SWITCH => true
  | .PRICE_BAND => price_band.isSome
  | .LOT_SIZE => true
  | .POSITION_SIZE => decide (0 < portfolio.net_asset_value)
  | .BUYING_POWER => decide (order.side = OrderSide.BUY)
  | .SELLABLE_QTY => decide (order.side = OrderSide.SELL)

/-! ## Concrete sample inputs (used by witnesses) -/

/-- A concrete order mirroring the fixture of `tests/unit/test_entities.py`. -/
def sampleOrder : Order :=
  { order_id := "ORD-001", symbol := "FPT", side := OrderSide.BUY
    order_type := OrderType.LO, quantity := 1000, price := 98500
    ceiling_price := 105400, floor_price := 91600
    status := OrderStatus.CREATED, filled_quantity := 0, avg_fill_price := 0
    broker_order_id := none, rejection_reason := none
    idempotency_key := "IDEM-001", created_at := 0, updated_at := 0 }

/-- The duplicate-placement request of spec scenario 1. -/
def sampleRequest : PlaceOrderRequest :=
  { symbol := "FPT", side := "BUY", order_type := "LO"
    quantity := 500, price := 72000, idempotency_key := "IDEM-ABC" }

/-- A broker stub that accepts every order. -/
def sampleBroker : PlaceOrderRequest → Except String String :=
  fun _ => Except.ok "BRK-123"

/-- A live (non-dry-run) call of `sampleRequest` with no risk gate. -/
def sampleCall : CallSpec :=
  { broker := sampleBroker, risk_check_fn := none, dry_run := false
    request := sampleRequest }

/-- A risk gate that rejects everything, as in
`tests/unit/test_place_order.py::test_risk_check_rejection`. -/
def rejectingRisk : PlaceOrderRequest → RiskDecision :=
  fun _ => { approved := false, reason := "Kill switch active" }

/-- `sampleCall` guarded by the always-rejecting risk gate. -/
def riskRejectCall : CallSpec :=
  { broker := sampleBroker, risk_check_fn := some rejectingRisk, dry_run := false
    request := sampleRequest }

/-- The world before any call: empty store, no broker calls. -/
def emptyState : OmsState := { store := [], broker_calls := 0, next_id := 0 }

/-- A portfolio with positive NAV (cash only). -/
def samplePortfolio : PortfolioState :=
  { positions := []
    cash := { cash_bal := 100000000, purchasing_power := 150000000, pending_settlement := 0 }
    synced_at := 0 }

/-- A portfolio whose NAV is zero (no positions, no settled cash). -/
def zeroNavPortfolio : PortfolioState :=
  { positions := []
    cash := { cash_bal := 0, purchasing_power := 150000000, pending_settlement := 0 }
    synced_at := 0 }

/-- Limits with the kill switch off. -/
def sampleLimits : RiskLimit :=
  { max_position_pct := 1 / 5, max_daily_loss := 5000000
    kill_switch_active := false, stop_loss_pct := 1 / 20, take_profit_pct := 3 / 20 }

/-- Limits with the kill switch on. -/
def killLimits : RiskLimit :=
  { sampleLimits with kill_switch_active := true }

/-! # Theorems -/

/-! ## C3 — order FSM whitelist -/

/-- C3: `transition_to` succeeds, returning an order whose status is the
target, exactly when the target is in the `_VALID_TRANSITIONS` whitelist
of the current status; otherwise it fails with `InvalidTransition`.  The
input order is a value the function never mutates (Python `replace`
copies), so the original is unchanged in every case.  The whitelist rows
are spelled out so the table itself is part of the statement. -/
theorem C3_transition_whitelist (o : Order) (s : OrderStatus) (p : OrderPatch) :
    ((∃ o', o.transition_to s p = Except.ok o' ∧ o'.status = s) ↔
      s ∈ validTransitions o.status) ∧
    (s ∉ validTransitions o.status →
      o.transition_to s p = Except.error "Invalid transition") ∧
    validTransitions OrderStatus.CREATED =
      [OrderStatus.PENDING, OrderStatus.REJECTED, OrderStatus.CANCELLED] ∧
    validTransitions OrderStatus.PENDING =
      [OrderStatus.PARTIAL_FILL, OrderStatus.MATCHED, OrderStatus.BROKER_REJECTED,
        OrderStatus.CANCELLED] ∧
    validTransitions OrderStatus.PARTIAL_FILL =
      [OrderStatus.PARTIAL_FILL, OrderStatus.MATCHED, OrderStatus.CANCELLED] ∧
    validTransitions OrderStatus.MATCHED = [] ∧
    validTransitions OrderStatus.REJECTED = [] ∧
    validTransitions OrderStatus.BROKER_REJECTED = [] ∧
    validTransitions OrderStatus.CANCELLED = [] := by
  refine ⟨?_, ?_, rfl, rfl, rfl, rfl, rfl, rfl, rfl⟩
  · by_cases h : s ∈ validTransitions o.status <;>
      simp [Order.transition_to, h]
  · intro h
    simp [Order.transition_to, h]

/-- C3 witness: from CREATED, the attempt `transition_to(MATCHED)` of spec
scenario 2 fails, and `transition_to(PENDING)` succeeds with the new
status. -/
theorem C3_witness :
    sampleOrder.transition_to OrderStatus.MATCHED OrderPatch.empty =
      Except.error "Invalid transition" ∧
    (∃ o', sampleOrder.transition_to OrderStatus.PENDING OrderPatch.empty =
      Except.ok o' ∧ o'.status = OrderStatus.PENDING) :=
  ⟨(C3_transition_whitelist sampleOrder OrderStatus.MATCHED OrderPatch.empty).2.1
      (by decide),
   (C3_transition_whitelist sampleOrder OrderStatus.PENDING OrderPatch.empty).1.mpr
      (by decide)⟩

/-! ## C4 — no post-assembly invariant check in `transition_to` -/

/-- C4 counterexample: `transition_to` applies the keyword patch with
`dataclasses.replace` and performs NO invariant check after assembly: a
CREATED→REJECTED transition carrying `filled_quantity=1500` on an order of
quantity 1000 succeeds and yields `filled_quantity > quantity`. -/
theorem C4_counterexample :
    ∃ o', sampleOrder.transition_to OrderStatus.REJECTED
        { OrderPatch.empty with filled_quantity := some 1500 } = Except.ok o' ∧
      o'.quantity < o'.filled_quantity := by
  refine ⟨_, rfl, ?_⟩
  decide

/-- C4 amended: `transition_to` checks only the status whitelist; no
invariant check is performed on the assembled value, and the kwargs patch
reaches `dataclasses.replace`, which may overwrite any field —
`quantity` included.  The produced order satisfies `filled_quantity ≤
quantity` exactly when the patched values respect it: if the patched
`filled_quantity` (the override when set, the original otherwise) is at
most the patched `quantity`, the invariant holds in the result. -/
theorem C4_amended (o : Order) (s : OrderStatus) (p : OrderPatch) (o' : Order)
    (h : o.transition_to s p = Except.ok o')
    (hfill : p.filled_quantity.getD o.filled_quantity ≤
      p.quantity.getD o.quantity) :
    o'.filled_quantity ≤ o'.quantity := by
  unfold Order.transition_to at h
  split_ifs at h
  cases h
  exact hfill

/-- C4 witness: a CREATED→PENDING transition with an empty patch keeps the
invariant. -/
theorem C4_witness :
    ({ applyPatch sampleOrder OrderPatch.empty with
        status := OrderStatus.PENDING } : Order).filled_quantity ≤
      ({ applyPatch sampleOrder OrderPatch.empty with
        status := OrderStatus.PENDING } : Order).quantity :=
  C4_amended sampleOrder OrderStatus.PENDING OrderPatch.empty _ rfl (by decide)

/-! ## Helper lemmas about `validate_order` -/

/-- With the kill switch active, `validate_order` returns immediately:
rejected, nothing else run. -/
theorem validate_order_kill (order : Order) (portfolio : PortfolioState)
    (limits : RiskLimit) (price_band : Option PriceBand) (pending_sell_qty : ℤ)
    (hk : limits.kill_switch_active = true) :
    validate_order order portfolio limits price_band pending_sell_qty =
      { approved := false, checks_passed := [], checks_failed := [Check.KILL_SWITCH] } := by
  simp [validate_order, hk]

/-- `validate_order` approves exactly when no check failed. -/
theorem validate_order_approved_iff (order : Order) (portfolio : PortfolioState)
    (limits : RiskLimit) (price_band : Option PriceBand) (pending_sell_qty : ℤ) :
    ((validate_order order portfolio limits price_band pending_sell_qty).approved = true ↔
      (validate_order order portfolio limits price_band pending_sell_qty).checks_failed = []) := by
  by_cases hk : limits.kill_switch_active = true
  · simp [validate_order, hk]
  · rw [Bool.not_eq_true] at hk
    simp only [validate_order, hk, Bool.false_eq_true, if_false]
    exact List.isEmpty_iff

/-- When the kill switch is off, every check runs independently: a check
tag appears (in `checks_passed` or `checks_failed`) exactly when the check
applies to the input, regardless of the other checks' outcomes. -/
theorem validate_order_mem (order : Order) (portfolio : PortfolioState)
    (limits : RiskLimit) (price_band : Option PriceBand) (pending_sell_qty : ℤ)
    (hk : limits.kill_switch_active = false) (c : Check) :
    (c ∈ (validate_order order portfolio limits price_band pending_sell_qty).checks_passed ∨
      c ∈ (validate_order order portfolio limits price_band pending_sell_qty).checks_failed) ↔
      checkApplicable order portfolio price_band c = true := by
  simp only [validate_order, hk, Bool.false_eq_true, if_false]
  cases c <;> rcases price_band with _ | band <;>
    simp only [checkApplicable, List.mem_append, List.mem_ite_nil_right,
      List.mem_ite_nil_left, List.mem_singleton, List.mem_cons, List.not_mem_nil,
      Option.isSome_none, Option.isSome_some, decide_eq_true_eq, reduceCtorEq,
      and_false, and_true, false_or, or_false, false_and, true_and,
      Bool.false_eq_true] <;>
    tauto

/-! ## C2 — approval iff no failures; kill switch short-circuits alone -/

/-- C2: `validate_order` approves exactly when `checks_failed` is empty;
with the kill switch active it rejects immediately with only the
`KILL_SWITCH` entry and no other check run; with it off, every other
check runs whenever it applies (`PRICE_BAND` iff a band was supplied,
`LOT_SIZE` always, `POSITION_SIZE` iff NAV is positive, `BUYING_POWER`
iff buying, `SELLABLE_QTY` iff selling) — no check other than the kill
switch short-circuits the rest. -/
theorem C2_validate_order (order : Order) (portfolio : PortfolioState)
    (limits : RiskLimit) (price_band : Option PriceBand) (pending_sell_qty : ℤ) :
    ((validate_order order portfolio limits price_band pending_sell_qty).approved = true ↔
      (validate_order order portfolio limits price_band pending_sell_qty).checks_failed = []) ∧
    (limits.kill_switch_active = true →
      validate_order order portfolio limits price_band pending_sell_qty =
        { approved := false, checks_passed := [], checks_failed := [Check.KILL_SWITCH] }) ∧
    (limits.kill_switch_active = false → ∀ c : Check,
      (c ∈ (validate_order order portfolio limits price_band pending_sell_qty).checks_passed ∨
        c ∈ (validate_order order portfolio limits price_band pending_sell_qty).checks_failed) ↔
        checkApplicable order portfolio price_band c = true) :=
  ⟨validate_order_approved_iff order portfolio limits price_band pending_sell_qty,
   fun hk => validate_order_kill order portfolio limits price_band pending_sell_qty hk,
   fun hk c => validate_order_mem order portfolio limits price_band pending_sell_qty hk c⟩

/-- C2 witness: with the kill switch on, the sample order is rejected. -/
theorem C2_witness :
    (validate_order sampleOrder samplePortfolio killLimits none 0).approved = false := by
  have h := (C2_validate_order sampleOrder samplePortfolio killLimits none 0).2.1 rfl
  rw [h]

/-! ## C10 — POSITION_SIZE skipped when NAV is not positive -/

/-- C10: when the portfolio's net asset value is zero or negative, the
POSITION_SIZE check is skipped entirely: its tag appears in neither
`checks_passed` nor `checks_failed`. -/
theorem C10_position_size_skipped (order : Order) (portfolio : PortfolioState)
    (limits : RiskLimit) (price_band : Option PriceBand) (pending_sell_qty : ℤ)
    (h : portfolio.net_asset_value ≤ 0) :
    Check.POSITION_SIZE ∉
      (validate_order order portfolio limits price_band pending_sell_qty).checks_passed ∧
    Check.POSITION_SIZE ∉
      (validate_order order portfolio limits price_band pending_sell_qty).checks_failed := by
  by_cases hk : limits.kill_switch_active = true
  · rw [validate_order_kill order portfolio limits price_band pending_sell_qty hk]
    simp
  · rw [Bool.not_eq_true] at hk
    have hmem := validate_order_mem order portfolio limits price_band pending_sell_qty hk
      Check.POSITION_SIZE
    have hnav : ¬(0 < portfolio.net_asset_value) := not_lt.mpr h
    rw [show checkApplicable order portfolio price_band Check.POSITION_SIZE =
          decide (0 < portfolio.net_asset_value) from rfl,
        decide_eq_false hnav] at hmem
    simp only [Bool.false_eq_true, iff_false, not_or] at hmem
    exact hmem

/-- C10 witness: against an empty zero-NAV portfolio, POSITION_SIZE is
reported neither as passed nor as failed. -/
theorem C10_witness :
    Check.POSITION_SIZE ∉
      (validate_order sampleOrder zeroNavPortfolio sampleLimits none 0).checks_passed ∧
    Check.POSITION_SIZE ∉
      (validate_order sampleOrder zeroNavPortfolio sampleLimits none 0).checks_failed :=
  C10_position_size_skipped sampleOrder zeroNavPortfolio sampleLimits none 0
    (by norm_num [zeroNavPortfolio, PortfolioState.net_asset_value])

/-! ## Helper lemmas about the settlement calendar -/

/-- Days ≥ 248 are past every configured 2026 holiday. -/
theorem no_holiday_late (n : ℕ) (h : 248 ≤ n) :
    VN_HOLIDAYS_2026.contains n = false := by
  simp only [VN_HOLIDAYS_2026, List.contains_cons, List.contains_nil,
    Bool.or_eq_false_iff, beq_eq_false_iff_ne, ne_eq, and_true]
  refine ⟨?_, ?_, ?_, ?_, ?_, ?_, ?_, ?_, ?_⟩ <;> omega

set_option maxRecDepth 8000 in
/-- Any day has a trading day at most 13 days ahead: a 14-day window
contains two full weeks (10 weekdays) while only 9 holidays are
configured. -/
theorem trading_within (c : ℕ) : ∃ k, k < 14 ∧ is_trading_day (c + k) = true := by
  by_cases hc : c < 248
  · have H : ∀ m : ℕ, m < 248 → ∃ k, k < 14 ∧ is_trading_day (m + k) = true := by decide
    exact H c hc
  · push_neg at hc
    refine ⟨(7 - c % 7) % 7, by omega, ?_⟩
    have hmem := no_holiday_late (c + (7 - c % 7) % 7) (by omega)
    simp only [is_trading_day, hmem, Bool.not_false, Bool.and_true,
      decide_eq_true_eq]
    omega

/-- The fuelled search loop, given enough fuel to reach a trading day,
returns the FIRST trading day at or after the starting candidate — the
semantics of the source's unbounded `while` loop. -/
theorem nextTradingDayAux_spec :
    ∀ (fuel c : ℕ), (∃ k, k < fuel ∧ is_trading_day (c + k) = true) →
      is_trading_day (nextTradingDayAux fuel c) = true ∧
      c ≤ nextTradingDayAux fuel c ∧
      ∀ m, c ≤ m → m < nextTradingDayAux fuel c → is_trading_day m = false := by
  intro fuel
  induction fuel with
  | zero =>
      intro c h
      obtain ⟨k, hk, _⟩ := h
      omega
  | succ n ih =>
      intro c h
      by_cases hc : is_trading_day c = true
      · refine ⟨by simp [nextTradingDayAux, hc], by simp [nextTradingDayAux, hc], ?_⟩
        simp only [nextTradingDayAux, hc, if_true]
        intro m h1 h2
        omega
      · rw [Bool.not_eq_true] at hc
        have h' : ∃ k, k < n ∧ is_trading_day (c + 1 + k) = true := by
          obtain ⟨k, hk, hkt⟩ := h
          match k, hk, hkt with
          | 0, _, hkt => rw [Nat.add_zero] at hkt; rw [hkt] at hc; cases hc
          | j + 1, hk, hkt =>
              refine ⟨j, by omega, ?_⟩
              have he : c + 1 + j = c + (j + 1) := by omega
              rw [he]
              exact hkt
        obtain ⟨ht, hle, hmin⟩ := ih (c + 1) h'
        have hstep : nextTradingDayAux (n + 1) c = nextTradingDayAux n (c + 1) := by
          simp [nextTradingDayAux, hc]
        refine ⟨by rw [hstep]; exact ht, by rw [hstep]; omega, ?_⟩
        rw [hstep]
        intro m h1 h2
        rcases Nat.eq_or_lt_of_le h1 with h1 | h1
        · rw [← h1]
          exact hc
        · exact hmin m (by omega) h2

/-- `next_trading_day` returns the smallest trading day strictly after its
argument: it skips exactly the weekends and configured holidays. -/
theorem next_trading_day_spec (d : ℕ) :
    d < next_trading_day d ∧ is_trading_day (next_trading_day d) = true ∧
      ∀ m, d < m → m < next_trading_day d → is_trading_day m = false := by
  obtain ⟨h1, h2, h3⟩ := nextTradingDayAux_spec 14 (d + 1) (trading_within (d + 1))
  exact ⟨by unfold next_trading_day; omega, h1,
    fun m hm1 hm2 => h3 m (by omega) hm2⟩

/-! ## C6 — T+2.5 sellability -/

/-- C6: `can_sell_now` returns true exactly when the current date is past
the settlement date, or equal to it with the hour at least 13; the
settlement date is `next_trading_day` applied twice to the buy date, and
each hop lands on the first trading day after its start (skipping
weekends and the configured holidays); at hour 12 (covering 12:59) on the
settlement date the shares are not sellable, at hour 13 they are. -/
theorem C6_can_sell_now (buy_date current_date current_hour : ℕ) :
    (can_sell_now buy_date current_date current_hour = true ↔
      ((calculate_settlement_date buy_date).settlement_date < current_date ∨
        (current_date = (calculate_settlement_date buy_date).settlement_date ∧
          13 ≤ current_hour))) ∧
    (calculate_settlement_date buy_date).settlement_date =
      next_trading_day (next_trading_day buy_date) ∧
    can_sell_now buy_date (calculate_settlement_date buy_date).settlement_date 12 = false ∧
    can_sell_now buy_date (calculate_settlement_date buy_date).settlement_date 13 = true ∧
    (buy_date < next_trading_day buy_date ∧
      is_trading_day (next_trading_day buy_date) = true ∧
      ∀ m, buy_date < m → m < next_trading_day buy_date →
        is_trading_day m = false) ∧
    (next_trading_day buy_date < next_trading_day (next_trading_day buy_date) ∧
      is_trading_day (next_trading_day (next_trading_day buy_date)) = true ∧
      ∀ m, next_trading_day buy_date < m →
        m < next_trading_day (next_trading_day buy_date) →
        is_trading_day m = false) := by
  refine ⟨?_, rfl, ?_, ?_, next_trading_day_spec buy_date,
    next_trading_day_spec (next_trading_day buy_date)⟩
  · simp only [can_sell_now]
    split_ifs with h1 h2 <;> simp <;> omega
  · simp only [can_sell_now]
    split_ifs with h1
    · exact absurd h1 (by omega)
    · decide
  · simp only [can_sell_now]
    split_ifs with h1
    · exact absurd h1 (by omega)
    · decide

/-- C6 witness: buy on Monday 2026-02-09 (day 42); settlement is
Wednesday 2026-02-11 (day 44) and 13:00 on that day is sellable. -/
theorem C6_witness :
    can_sell_now 42 (calculate_settlement_date 42).settlement_date 13 = true :=
  (C6_can_sell_now 42 44 13).2.2.2.1

/-! ## Helper lemmas about `place_order` and the idempotency store -/

/-- A key just recorded is found, with the recorded result. -/
theorem storeCheck_record_self (s : IdempotencyStore) (k : String)
    (r : PlaceOrderResult) : storeCheck (storeRecord s k r) k = some r := by
  simp [storeCheck, storeRecord]

/-- Recording under a different key does not change a lookup. -/
theorem storeCheck_record_ne (s : IdempotencyStore) (k k' : String)
    (r : PlaceOrderResult) (h : k' ≠ k) :
    storeCheck (storeRecord s k' r) k = storeCheck s k := by
  unfold storeCheck storeRecord
  rw [List.find?_cons_of_neg]
  simp [h]

/-- A call whose key is already stored returns the cached outcome (with
`error` cleared and `was_duplicate` set) and leaves the world unchanged. -/
theorem place_order_duplicate (broker : PlaceOrderRequest → Except String String)
    (risk : Option (PlaceOrderRequest → RiskDecision)) (dry : Bool)
    (req : PlaceOrderRequest) (st : OmsState) (cached : PlaceOrderResult)
    (h : storeCheck st.store req.idempotency_key = some cached) :
    place_order broker risk dry req st =
      ({ success := cached.success, order_id := cached.order_id
         broker_order_id := cached.broker_order_id, error := none
         was_duplicate := true }, st) := by
  simp [place_order, h]

/-- A call on a fresh key always records its own result under that key. -/
theorem place_order_records (broker : PlaceOrderRequest → Except String String)
    (risk : Option (PlaceOrderRequest → RiskDecision)) (dry : Bool)
    (req : PlaceOrderRequest) (st : OmsState)
    (h : storeCheck st.store req.idempotency_key = none) :
    storeCheck (place_order broker risk dry req st).2.store req.idempotency_key =
      some (place_order broker risk dry req st).1 := by
  rcases risk with _ | f
  · cases dry
    · rcases hb : broker req with e | ok <;>
        simp [place_order, h, hb, storeCheck_record_self]
    · simp [place_order, h, storeCheck_record_self]
  · by_cases hf : (f req).approved = true
    · cases dry
      · rcases hb : broker req with e | ok <;>
          simp [place_order, h, hb, hf, storeCheck_record_self]
      · simp [place_order, h, hf, storeCheck_record_self]
    · rw [Bool.not_eq_true] at hf
      simp [place_order, h, hf, storeCheck_record_self]

/-- After any call, the key of that call is stored with a result carrying
the same success flag and order id the caller saw. -/
theorem place_order_stored (broker : PlaceOrderRequest → Except String String)
    (risk : Option (PlaceOrderRequest → RiskDecision)) (dry : Bool)
    (req : PlaceOrderRequest) (st : OmsState) :
    ∃ stored,
      storeCheck (place_order broker risk dry req st).2.store req.idempotency_key =
        some stored ∧
      stored.success = (place_order broker risk dry req st).1.success ∧
      stored.order_id = (place_order broker risk dry req st).1.order_id := by
  cases hc : storeCheck st.store req.idempotency_key with
  | none =>
      exact ⟨_, place_order_records broker risk dry req st hc, rfl, rfl⟩
  | some cached =>
      rw [place_order_duplicate broker risk dry req st cached hc]
      exact ⟨cached, hc, rfl, rfl⟩

/-- No call ever removes or rewrites another key's stored result. -/
theorem place_order_preserves (broker : PlaceOrderRequest → Except String String)
    (risk : Option (PlaceOrderRequest → RiskDecision)) (dry : Bool)
    (req : PlaceOrderRequest) (st : OmsState) (k : String) (r : PlaceOrderResult)
    (h : storeCheck st.store k = some r) :
    storeCheck (place_order broker risk dry req st).2.store k = some r := by
  by_cases hk : req.idempotency_key = k
  · subst hk
    rw [place_order_duplicate broker risk dry req st r h]
    exact h
  · cases hc : storeCheck st.store req.idempotency_key with
    | some cached =>
        rw [place_order_duplicate broker risk dry req st cached hc]
        exact h
    | none =>
        rcases risk with _ | f
        · cases dry
          · rcases hb : broker req with e | ok <;>
              simp [place_order, hc, hb, storeCheck_record_ne _ _ _ _ hk, h]
          · simp [place_order, hc, storeCheck_record_ne _ _ _ _ hk, h]
        · by_cases hf : (f req).approved = true
          · cases dry
            · rcases hb : broker req with e | ok <;>
                simp [place_order, hc, hb, hf, storeCheck_record_ne _ _ _ _ hk, h]
            · simp [place_order, hc, hf, storeCheck_record_ne _ _ _ _ hk, h]
          · rw [Bool.not_eq_true] at hf
            simp [place_order, hc, hf, storeCheck_record_ne _ _ _ _ hk, h]

/-- Stored keys survive any sequence of further calls. -/
theorem runSeq_preserves (cs : List CallSpec) (st : OmsState) (k : String)
    (r : PlaceOrderResult) (h : storeCheck st.store k = some r) :
    storeCheck (runSeq cs st).store k = some r := by
  induction cs generalizing st with
  | nil => exact h
  | cons c cs ih =>
      rw [show runSeq (c :: cs) st = runSeq cs (runCall c st).2 from rfl]
      exact ih _ (place_order_preserves c.broker c.risk_check_fn c.dry_run
        c.request st k r h)

/-! ## C1 — idempotent placement -/

/-- C1: after a call with key `k` that reports success, any later call
with the same key — with any number of other placements in between, and
regardless of that later call's broker, risk gate or dry-run flag —
returns `was_duplicate = true` carrying the original `order_id` and
success flag, and leaves the world state (in particular the count of
broker `place_order` invocations) untouched: the broker is invoked zero
additional times for that key. -/
theorem C1_idempotent_replay (c0 c1 : CallSpec) (mids : List CallSpec)
    (st : OmsState)
    (hkey : c1.request.idempotency_key = c0.request.idempotency_key)
    (hsucc : (runCall c0 st).1.success = true) :
    (runCall c1 (runSeq mids (runCall c0 st).2)).1.was_duplicate = true ∧
    (runCall c1 (runSeq mids (runCall c0 st).2)).1.order_id =
      (runCall c0 st).1.order_id ∧
    (runCall c1 (runSeq mids (runCall c0 st).2)).1.success = true ∧
    (runCall c1 (runSeq mids (runCall c0 st).2)).2 =
      runSeq mids (runCall c0 st).2 ∧
    (runCall c1 (runSeq mids (runCall c0 st).2)).2.broker_calls =
      (runSeq mids (runCall c0 st).2).broker_calls := by
  obtain ⟨stored, hst, hs, ho⟩ :=
    place_order_stored c0.broker c0.risk_check_fn c0.dry_run c0.request st
  have hmid := runSeq_preserves mids _ _ _ hst
  have hdup : runCall c1 (runSeq mids (runCall c0 st).2) =
      ({ success := stored.success, order_id := stored.order_id
         broker_order_id := stored.broker_order_id, error := none
         was_duplicate := true }, runSeq mids (runCall c0 st).2) :=
    place_order_duplicate c1.broker c1.risk_check_fn c1.dry_run
      c1.request (runSeq mids (runCall c0 st).2) stored (by rw [hkey]; exact hmid)
  rw [hdup]
  exact ⟨rfl, ho, hs.trans hsucc, rfl, rfl⟩

/-- C1 witness: two placements of the spec's duplicate scenario
(key "IDEM-ABC") — the replay is flagged as duplicate. -/
theorem C1_witness :
    (runCall sampleCall (runSeq [] (runCall sampleCall emptyState).2)).1.was_duplicate
      = true :=
  (C1_idempotent_replay sampleCall sampleCall [] emptyState rfl rfl).1

/-! ## C8 — retried risk rejections -/

/-- C8 counterexample: the first call is rejected by the risk gate with
reason "Kill switch active"; the retried call with the same key returns
`error = None` — NOT the stored error reason, so the stored result is not
returned verbatim. -/
theorem C8_counterexample :
    (runCall riskRejectCall emptyState).1.error = some "Kill switch active" ∧
    (runCall riskRejectCall (runCall riskRejectCall emptyState).2).1.error =
      none := by
  exact ⟨rfl, rfl⟩

/-- C8 amended: a risk-gate rejection on a fresh key is recorded under the
idempotency key, and every subsequent call with that key (any interleaved
placements, any collaborators) observes the stored success flag (false),
order id (none) and broker order id (none) with `was_duplicate = true`;
the `error` field of the duplicate response, however, is set to `None`, so
the original rejection reason is not re-observed. -/
theorem C8_amended (c0 c1 : CallSpec) (mids : List CallSpec) (st : OmsState)
    (f : PlaceOrderRequest → RiskDecision)
    (hrisk : c0.risk_check_fn = some f)
    (hrej : (f c0.request).approved = false)
    (hnew : storeCheck st.store c0.request.idempotency_key = none)
    (hkey : c1.request.idempotency_key = c0.request.idempotency_key) :
    (runCall c0 st).1 =
      { success := false, order_id := none, broker_order_id := none
        error := some (f c0.request).reason, was_duplicate := false } ∧
    (runCall c1 (runSeq mids (runCall c0 st).2)).1 =
      { success := false, order_id := none, broker_order_id := none
        error := none, was_duplicate := true } := by
  have hres : (runCall c0 st).1 =
      ⟨false, none, none, some (f c0.request).reason, false⟩ := by
    simp [runCall, place_order, hnew, hrisk, hrej]
  have hstore : (runCall c0 st).2.store =
      storeRecord st.store c0.request.idempotency_key
        ⟨false, none, none, some (f c0.request).reason, false⟩ := by
    simp [runCall, place_order, hnew, hrisk, hrej]
  refine ⟨hres, ?_⟩
  have hst : storeCheck (runCall c0 st).2.store c0.request.idempotency_key =
      some ⟨false, none, none, some (f c0.request).reason, false⟩ := by
    rw [hstore]
    exact storeCheck_record_self _ _ _
  have hmid := runSeq_preserves mids _ _ _ hst
  have hdup : runCall c1 (runSeq mids (runCall c0 st).2) =
      ({ success := false, order_id := none, broker_order_id := none
         error := none, was_duplicate := true },
       runSeq mids (runCall c0 st).2) :=
    place_order_duplicate c1.broker c1.risk_check_fn c1.dry_run
      c1.request (runSeq mids (runCall c0 st).2)
      ⟨false, none, none, some (f c0.request).reason, false⟩
      (by rw [hkey]; exact hmid)
  rw [hdup]

/-- C8 witness: the always-rejecting risk gate scenario, replayed once —
the retry shows success = false, was_duplicate = true and error = None. -/
theorem C8_witness :
    (runCall riskRejectCall (runSeq [] (runCall riskRejectCall emptyState).2)).1 =
      { success := false, order_id := none, broker_order_id := none
        error := none, was_duplicate := true } :=
  (C8_amended riskRejectCall riskRejectCall [] emptyState rejectingRisk
    rfl rfl rfl rfl).2

/-! ## C7 — price representation on the broker wire -/

/-- C7 (refuting the claim): `_submit_to_broker` passes
`price=float(request.price)` to the broker — the transmitted price is the
float conversion of the request's decimal price, not a decimal string, for
every request.  (The persistence path, by contrast, uses
`str(request.price)`.) -/
theorem C7_price_sent_as_float (request : PlaceOrderRequest) :
    (submit_to_broker_payload request).price = WirePrice.floatOf request.price ∧
    (submit_to_broker_payload request).price ≠
      WirePrice.decimalStringOf request.price := by
  exact ⟨rfl, by simp [submit_to_broker_payload]⟩

/-- C7 witness: the spec's duplicate-placement request (price 72000) is
submitted with a float-converted price. -/
theorem C7_witness :
    (submit_to_broker_payload sampleRequest).price =
      WirePrice.floatOf sampleRequest.price :=
  (C7_price_sent_as_float sampleRequest).1

/-! ## Helper lemmas about the circuit breaker -/

/-- Folding failing calls through a CLOSED breaker that stays below its
threshold: the breaker remains CLOSED, the count grows by one per call,
and configuration is untouched. -/
theorem applyFailures_closed (ts : List ℚ) : ∀ cb : CircuitBreaker,
    cb.state = CircuitState.CLOSED →
    cb.failure_count + ts.length < cb.failure_threshold →
    (applyFailures cb ts).state = CircuitState.CLOSED ∧
    (applyFailures cb ts).failure_count = cb.failure_count + ts.length ∧
    (applyFailures cb ts).failure_threshold = cb.failure_threshold ∧
    (applyFailures cb ts).recovery_timeout = cb.recovery_timeout := by
  induction ts with
  | nil =>
      intro cb h1 _
      exact ⟨h1, by simp [applyFailures], rfl, rfl⟩
  | cons t ts ih =>
      intro cb h1 h2
      have hstep : applyFailures cb (t :: ts) =
          applyFailures ((cb.call t false).2) ts := rfl
      have hlt : ¬(cb.failure_count + 1 ≥ cb.failure_threshold) := by
        simp only [List.length_cons] at h2
        omega
      have hcall : (cb.call t false).2 =
          { cb with failure_count := cb.failure_count + 1
                    last_failure_time := t } := by
        simp [CircuitBreaker.call, CircuitBreaker.on_failure, h1, hlt]
      rw [hstep, hcall]
      obtain ⟨a, b, c, d⟩ := ih
        { cb with failure_count := cb.failure_count + 1, last_failure_time := t }
        h1 (by
          show cb.failure_count + 1 + ts.length < cb.failure_threshold
          simp only [List.length_cons] at h2
          omega)
      refine ⟨a, ?_, c, d⟩
      rw [b]
      simp only [List.length_cons]
      omega

/-! ## C9 — circuit breaker lifecycle -/

/-- C9: from a fresh breaker, `failure_threshold − 1` consecutive failures
leave it CLOSED with the count at `threshold − 1`; the next failure flips
it to OPEN and records that call's time as `last_failure_time`; while
OPEN, any call before `recovery_timeout` has elapsed fails fast with
`CircuitOpen` and changes nothing; and any admitted successful call resets
the breaker to CLOSED with `failure_count = 0`. -/
theorem C9_circuit_breaker (threshold : ℕ) (timeout : ℚ) (ts : List ℚ) (t : ℚ)
    (h1 : 1 ≤ threshold) (h2 : ts.length = threshold - 1) :
    (applyFailures (CircuitBreaker.init threshold timeout) ts).state =
      CircuitState.CLOSED ∧
    (applyFailures (CircuitBreaker.init threshold timeout) ts).failure_count =
      threshold - 1 ∧
    ((applyFailures (CircuitBreaker.init threshold timeout) ts).call t false).2.state =
      CircuitState.OPEN ∧
    ((applyFailures (CircuitBreaker.init threshold timeout) ts).call t
      false).2.last_failure_time = t ∧
    ((applyFailures (CircuitBreaker.init threshold timeout) ts).call t false).1 =
      CallOutcome.failed ∧
    (∀ (cb : CircuitBreaker) (now : ℚ) (s : Bool), cb.state = CircuitState.OPEN →
      now - cb.last_failure_time < cb.recovery_timeout →
      cb.call now s = (CallOutcome.circuitOpen, cb)) ∧
    (∀ (cb : CircuitBreaker) (now : ℚ),
      ¬(cb.state = CircuitState.OPEN ∧
        now - cb.last_failure_time < cb.recovery_timeout) →
      (cb.call now true).1 = CallOutcome.succeeded ∧
      (cb.call now true).2.state = CircuitState.CLOSED ∧
      (cb.call now true).2.failure_count = 0) := by
  obtain ⟨ha, hb, hc, _⟩ := applyFailures_closed ts (CircuitBreaker.init threshold timeout)
    rfl (by simp only [CircuitBreaker.init]; omega)
  have hfc : (applyFailures (CircuitBreaker.init threshold timeout) ts).failure_count =
      threshold - 1 := by
    rw [hb]
    simp only [CircuitBreaker.init]
    omega
  have hge : (applyFailures (CircuitBreaker.init threshold timeout) ts).failure_count + 1 ≥
      (applyFailures (CircuitBreaker.init threshold timeout) ts).failure_threshold := by
    rw [hfc, hc]
    simp only [CircuitBreaker.init]
    omega
  refine ⟨ha, hfc, ?_, ?_, ?_, ?_, ?_⟩
  · simp [CircuitBreaker.call, CircuitBreaker.on_failure, ha, hge]
  · simp [CircuitBreaker.call, CircuitBreaker.on_failure, ha, hge]
  · simp [CircuitBreaker.call, ha]
  · intro cb now s hopen hlt
    unfold CircuitBreaker.call
    rw [if_pos ⟨hopen, hlt⟩]
  · intro cb now hno
    unfold CircuitBreaker.call
    rw [if_neg hno]
    exact ⟨rfl, rfl, rfl⟩

/-- C9 witness: the spec's recovery scenario with threshold 3 — failures
at times 1 and 2 leave the breaker CLOSED at count 2, a third at time 3
opens it. -/
theorem C9_witness :
    (applyFailures (CircuitBreaker.init 3 30) [1, 2]).state =
      CircuitState.CLOSED ∧
    ((applyFailures (CircuitBreaker.init 3 30) [1, 2]).call 3 false).2.state =
      CircuitState.OPEN :=
  ⟨(C9_circuit_breaker 3 30 [1, 2] 3 (by decide) rfl).1,
   (C9_circuit_breaker 3 30 [1, 2] 3 (by decide) rfl).2.2.1⟩

/-! ## Helper lemmas about price bands -/

/-- Every tick size the table can produce is positive. -/
theorem get_tick_size_pos (exchange : Exchange) (price : ℚ) :
    0 < get_tick_size exchange price := by
  cases exchange
  · simp only [get_tick_size, findTick, HOSE_TICK_SIZES]
    split_ifs <;> norm_num
  · show (0:ℚ) < 100
    norm_num
  · show (0:ℚ) < 100
    norm_num

/-- Every exchange band percentage is positive. -/
theorem PRICE_BAND_PCT_pos (exchange : Exchange) : 0 < PRICE_BAND_PCT exchange := by
  cases exchange <;> norm_num [PRICE_BAND_PCT]

/-- Every exchange band percentage is below one. -/
theorem PRICE_BAND_PCT_lt_one (exchange : Exchange) : PRICE_BAND_PCT exchange < 1 := by
  cases exchange <;> norm_num [PRICE_BAND_PCT]

/-- Snapping a nonnegative value down to a positive tick grid stays within
one tick below the value. -/
theorem snap_down_bounds (v t : ℚ) (hv : 0 ≤ v) (ht : 0 < t) :
    snap_down v t ≤ v ∧ v - t < snap_down v t := by
  have hq : 0 ≤ v / t := div_nonneg hv ht.le
  unfold snap_down roundTowardZero
  rw [if_pos hq]
  constructor
  · calc (⌊v / t⌋ : ℚ) * t ≤ (v / t) * t :=
          mul_le_mul_of_nonneg_right (Int.floor_le _) ht.le
      _ = v := div_mul_cancel₀ v (ne_of_gt ht)
  · calc v - t = (v / t - 1) * t := by
          rw [sub_mul, div_mul_cancel₀ v (ne_of_gt ht), one_mul]
      _ < (⌊v / t⌋ : ℚ) * t :=
          mul_lt_mul_of_pos_right (Int.sub_one_lt_floor _) ht

/-- Snapping a nonnegative value up to a positive tick grid stays within
one tick above the value. -/
theorem snap_up_bounds (v t : ℚ) (hv : 0 ≤ v) (ht : 0 < t) :
    v ≤ snap_up v t ∧ snap_up v t < v + t := by
  have hq : 0 ≤ v / t := div_nonneg hv ht.le
  unfold snap_up roundAwayFromZero
  rw [if_pos hq]
  constructor
  · calc v = (v / t) * t := (div_mul_cancel₀ v (ne_of_gt ht)).symm
      _ ≤ (⌈v / t⌉ : ℚ) * t :=
          mul_le_mul_of_nonneg_right (Int.le_ceil _) ht.le
  · calc (⌈v / t⌉ : ℚ) * t < (v / t + 1) * t :=
          mul_lt_mul_of_pos_right (Int.ceil_lt_add_one _) ht
      _ = v + t := by rw [add_mul, div_mul_cancel₀ v (ne_of_gt ht), one_mul]

/-! ## C5 — price band invariants -/

/-- C5 counterexample: on HNX with reference price 50 VND the 100 VND tick
exceeds the 10% band: the snapped floor is 100 and the snapped ceiling is
0, so `floor ≤ reference ≤ ceiling` fails. -/
theorem C5_counterexample :
    ¬ ((calculate_price_band "ABC" Exchange.HNX 50).floor_price ≤
        (calculate_price_band "ABC" Exchange.HNX 50).reference_price ∧
       (calculate_price_band "ABC" Exchange.HNX 50).reference_price ≤
        (calculate_price_band "ABC" Exchange.HNX 50).ceiling_price) := by
  have hceil : ⌈(50 * (1 - 10 / 100) : ℚ) / 100⌉ = 1 := by
    rw [Int.ceil_eq_iff]
    norm_num
  have hf : (calculate_price_band "ABC" Exchange.HNX 50).floor_price = 100 := by
    show snap_up (50 * (1 - PRICE_BAND_PCT Exchange.HNX))
      (get_tick_size Exchange.HNX 50) = 100
    rw [show PRICE_BAND_PCT Exchange.HNX = 10 / 100 from rfl,
        show get_tick_size Exchange.HNX 50 = 100 from rfl]
    unfold snap_up roundAwayFromZero
    rw [if_pos (by norm_num : (0:ℚ) ≤ 50 * (1 - 10 / 100) / 100), hceil]
    norm_num
  intro h
  obtain ⟨hle, _⟩ := h
  rw [hf, show (calculate_price_band "ABC" Exchange.HNX 50).reference_price = 50
    from rfl] at hle
  norm_num at hle

/-- C5 amended: for every input whatsoever, ceiling and floor are exact
integer multiples of the tick size (ceiling snapped down, floor snapped
up); and whenever the tick size does not exceed the band width
`band% × reference` (true of every realistically priced listing; violated
only by tiny references such as 50 VND on HNX, as the counterexample
shows), the snapped band satisfies `floor ≤ reference ≤ ceiling`. -/
theorem C5_price_band (symbol : String) (exchange : Exchange) (ref : ℚ) :
    (∃ m : ℤ, (calculate_price_band symbol exchange ref).ceiling_price =
      (m : ℚ) * (calculate_price_band symbol exchange ref).tick_size) ∧
    (∃ n : ℤ, (calculate_price_band symbol exchange ref).floor_price =
      (n : ℚ) * (calculate_price_band symbol exchange ref).tick_size) ∧
    (get_tick_size exchange ref ≤ PRICE_BAND_PCT exchange * ref →
      (calculate_price_band symbol exchange ref).floor_price ≤ ref ∧
      ref ≤ (calculate_price_band symbol exchange ref).ceiling_price) := by
  refine ⟨⟨roundTowardZero (ref * (1 + PRICE_BAND_PCT exchange) /
      get_tick_size exchange ref), rfl⟩,
    ⟨roundAwayFromZero (ref * (1 - PRICE_BAND_PCT exchange) /
      get_tick_size exchange ref), rfl⟩, ?_⟩
  intro h
  have htpos : 0 < get_tick_size exchange ref := get_tick_size_pos exchange ref
  have hp0 : 0 < PRICE_BAND_PCT exchange := PRICE_BAND_PCT_pos exchange
  have hp1 : PRICE_BAND_PCT exchange < 1 := PRICE_BAND_PCT_lt_one exchange
  have hpr : 0 < PRICE_BAND_PCT exchange * ref := lt_of_lt_of_le htpos h
  have href : 0 < ref := by nlinarith [hpr, hp0]
  have hcras : (0:ℚ) ≤ ref * (1 + PRICE_BAND_PCT exchange) := by nlinarith
  have hfras : (0:ℚ) ≤ ref * (1 - PRICE_BAND_PCT exchange) := by nlinarith
  have hc := snap_down_bounds (ref * (1 + PRICE_BAND_PCT exchange))
    (get_tick_size exchange ref) hcras htpos
  have hf := snap_up_bounds (ref * (1 - PRICE_BAND_PCT exchange))
    (get_tick_size exchange ref) hfras htpos
  constructor
  · show snap_up (ref * (1 - PRICE_BAND_PCT exchange))
      (get_tick_size exchange ref) ≤ ref
    nlinarith [hf.2, h]
  · show ref ≤ snap_down (ref * (1 + PRICE_BAND_PCT exchange))
      (get_tick_size exchange ref)
    nlinarith [hc.2, h]

/-- C5 witness: HOSE reference 100,000 VND (tick 100, band 7000): the
reference sits inside the snapped band, whose edges are tick multiples;
and the multiples conjuncts also hold at the tiny HNX reference 50 where
the containment fails. -/
theorem C5_witness :
    (calculate_price_band "FPT" Exchange.HOSE 100000).floor_price ≤ 100000 ∧
    (100000:ℚ) ≤ (calculate_price_band "FPT" Exchange.HOSE 100000).ceiling_price ∧
    (∃ m : ℤ, (calculate_price_band "FPT" Exchange.HOSE 100000).ceiling_price =
      (m : ℚ) * (calculate_price_band "FPT" Exchange.HOSE 100000).tick_size) ∧
    (∃ n : ℤ, (calculate_price_band "ABC" Exchange.HNX 50).floor_price =
      (n : ℚ) * (calculate_price_band "ABC" Exchange.HNX 50).tick_size) := by
  have h := C5_price_band "FPT" Exchange.HOSE 100000
  have hin := h.2.2
    (by norm_num [get_tick_size, findTick, HOSE_TICK_SIZES, PRICE_BAND_PCT])
  exact ⟨hin.1, hin.2, h.1, (C5_price_band "ABC" Exchange.HNX 50).2.1⟩

end TradingTools
